import Mathlib

/-!
Shallow embedding of the console-interception pipeline of
sse-mod-skyrim-search-se (src/console.rs, src/db.rs).

External collaborators (the CStr decoder, the shlex tokenizer, the clap
argument parser, the rusqlite connection/statement/cursor and the
prettytable renderer) are modelled as oracles supplied in an environment;
the control flow of `new_process_console_input`, `process_query_command`
and `print` is translated from the source.  A panic (index out of bounds,
`panic!` in db.rs's lazy DB initializer) is recorded in the effects
instead of unwinding.
-/

namespace SkyrimSearch

/-- console.rs line 19: the reserved command aliases. -/
def SKYRIM_SEARCH_COMMANDS : List String := ["ss", "sss", "skyrimsearch", "skyrimsearchse"]

/-- Rust `char::to_ascii_lowercase`: lowercases ASCII A-Z only. -/
def asciiLowerChar (c : Char) : Char :=
  if 'A' ≤ c ∧ c ≤ 'Z' then Char.ofNat (c.toNat + 32) else c

/-- Rust `str::to_ascii_lowercase`. -/
def toAsciiLowercase (s : String) : String :=
  String.mk (s.data.map asciiLowerChar)

/-- Rust `char::is_ascii_whitespace`: space, tab, newline, form feed, carriage return. -/
def isAsciiWhitespace (c : Char) : Bool :=
  c = ' ' || c = '\t' || c = '\n' || c = '\x0c' || c = '\r'

/-- Splitting a character list at every separator, Rust `str::split` style:
the result always has one word more than there are separators, and words
may be empty (`"a\n"` splits into `["a", ""]`). -/
def splitChars (p : Char → Bool) : List Char → List (List Char)
  | [] => [[]]
  | c :: cs =>
    match splitChars p cs, p c with
    | r, true => [] :: r
    | [], false => [[c]]
    | w :: ws, false => (c :: w) :: ws

/-- Rust `str::split` with a character predicate. -/
def strSplit (p : Char → Bool) (s : String) : List String :=
  (splitChars p s.data).map String.mk

/-- Rust `char::is_whitespace`: the Unicode White_Space property (a strict
superset of ASCII whitespace — e.g. U+00A0 NO-BREAK SPACE is included). -/
def isRustWhitespace (c : Char) : Bool :=
  let n := c.toNat
  (0x09 ≤ n && n ≤ 0x0D) || n = 0x20 || n = 0x85 || n = 0xA0 || n = 0x1680 ||
    (0x2000 ≤ n && n ≤ 0x200A) || n = 0x2028 || n = 0x2029 || n = 0x202F ||
    n = 0x205F || n = 0x3000

/-- Worker for `trimStart`: drop the leading Unicode-whitespace characters. -/
def trimStartChars : List Char → List Char
  | [] => []
  | c :: cs => if isRustWhitespace c then trimStartChars cs else c :: cs

/-- Rust `str::trim_start`: removes leading Unicode whitespace. -/
def trimStart (s : String) : String :=
  String.mk (trimStartChars s.data)

/-- console.rs line 60: `input.trim_start().split_ascii_whitespace().next()`.
`trim_start` removes leading *Unicode* whitespace (so a leading U+00A0 is
stripped before the word is taken), then `split_ascii_whitespace` yields the
first maximal run of non-ASCII-whitespace characters, if any. -/
def firstWord (s : String) : Option String :=
  ((strSplit isAsciiWhitespace (trimStart s)).filter (fun w => w ≠ "")).head?

/-- rusqlite `ValueRef`: the dynamic type of one result cell.  A `real` carries
the string Rust's `f64::to_string` produced (floating point itself is not
re-modelled); a `text` carries the result of `String::from_utf8_lossy`. -/
inductive Value
  | null
  | integer (v : Int)
  | real (repr : String)
  | text (s : String)
  | blob (len : Nat)
deriving DecidableEq

/-- Lowercase hex digit for a value below 16. -/
def hexDigitChar (n : Nat) : Char :=
  if n < 10 then Char.ofNat (48 + n) else Char.ofNat (87 + n)

/-- Fuel-driven digit accumulator for `natHexDigits` (the fuel only bounds
the recursion depth; `n + 1` units always suffice). -/
def natHexAux : Nat → Nat → List Char → List Char
  | 0, _, acc => acc
  | fuel + 1, n, acc =>
    let acc1 := hexDigitChar (n % 16) :: acc
    if n / 16 = 0 then acc1 else natHexAux fuel (n / 16) acc1

/-- Hex digits of a natural number, most significant first (no leading zeros,
`0` renders as `"0"`), as Rust's `{:x}` produces for an unsigned value. -/
def natHexDigits (n : Nat) : List Char :=
  natHexAux (n + 1) n []

/-- Rust `format!("\x7b:#x\x7d", v)` for `v : i64`: `0x`-prefixed lowercase hex of
the two's-complement bit pattern of `v`. -/
def formatHexI64 (v : Int) : String :=
  "0x" ++ String.mk (natHexDigits ((v % (2:Int) ^ 64).toNat))

/-- console.rs lines 126-138: rendering of one result cell. -/
def renderCell (intAsDecimal : Bool) : Value → String
  | .null => "<null>"
  | .integer v => if intAsDecimal then toString v else formatHexI64 v
  | .real r => r
  | .text s => s
  | .blob n => "<" ++ toString n ++ "-byte blob>"

/-- The prettytable `Table` as built by `process_query_command`:
`noBorderFmt` records whether `FORMAT_NO_BORDER_LINE_SEPARATOR` was set. -/
structure PTable where
  noBorderFmt : Bool
  titles : Option (List String)
  rows : List (List String)
deriving DecidableEq

/-- One call to `print`: either a plain string, or `ptable.to_string()`
(the final text rendering of a table is the external prettytable
collaborator, so the table is recorded structurally). -/
inductive ConsoleMsg
  | text (s : String)
  | table (t : PTable)
deriving DecidableEq

/-- Rust debug escaping of one character inside a quoted string (only the
escapes relevant to `\x7b:?\x7d` on plain strings are reproduced). -/
def rustEscapeChar (c : Char) : String :=
  if c = '"' then "\\\"" else if c = '\\' then "\\\\" else String.singleton c

/-- Rust `format!("\x7b:?\x7d", s)` for a `String`. -/
def rustDebugStr (s : String) : String :=
  "\"" ++ String.join (s.data.map rustEscapeChar) ++ "\""

/-- Rust `format!("\x7b:?\x7d", v)` for a `Vec<String>`. -/
def rustDebugStrList (l : List String) : String :=
  "[" ++ String.intercalate ", " (l.map rustDebugStr) ++ "]"

/-- The `query` subcommand's matches (clap's `ArgMatches` restricted to what
`process_query_command` reads): `values_of("sql")` — nonempty by the
grammar's `required(true)` — and `is_present("int-as-decimal")`. -/
structure QuerySubMatches where
  sql : List String
  intAsDecimal : Bool

/-- Result of `get_clap().get_matches_from_safe(input)` (clap is an external
collaborator): an error with its display message, or parsed matches carrying
their debug representation and, when the `query` subcommand matched,
its submatches. -/
inductive ClapResult
  | error (msg : String)
  | parsed (dbg : String) (query : Option QuerySubMatches)

/-- Oracles for the external collaborators touched by
`process_query_command` (db.rs and rusqlite):
* `dbInit`: the lazily-initialized `db::DB` (db.rs lines 6-16); on its first
  touch an `Err` makes `lazy_static` run `panic!(format!("\x7b:#\x7d", err))` with
  the `init_db error` context;
* `prepare`: `db.prepare(sql)`, per SQL text;
* `queryRes`: `stmt.query(NO_PARAMS)`;
* `columnCount` / `columnNames`: `rows.column_count()` / `rows.column_names()`;
* `rowsList`: the successful `rows.next()` yields, in order;
* `rowsErr`: when `some e`, `rows.next()` fails with `e` after `rowsList`
  instead of reporting the normal end of the cursor. -/
structure QueryEnv where
  dbInit : Except String Unit
  prepare : String → Except String String
  queryRes : Except String Unit
  columnCount : Option Nat
  columnNames : Option (List String)
  rowsList : List (List Value)
  rowsErr : Option String

/-- Outcome of `process_query_command`: `Ok(())`, `Err` with the display text
of the anyhow error, or a panic (which in Rust unwinds out of the function). -/
inductive QOut
  | ok
  | err (msg : String)
  | panicked (msg : String)
deriving DecidableEq

/-- Output-channel calls made by `process_query_command`, plus its outcome. -/
structure QEffects where
  prints : List ConsoleMsg
  out : QOut

/-- console.rs lines 93-145: `process_query_command`.  anyhow's `context`
is modelled as prefixing the cause's message, matching `format!("\x7b:#\x7d", err)`
rendering of the chain. -/
def process_query_command (qenv : QueryEnv) (m : QuerySubMatches) : QEffects :=
  -- `let sql = matches.values_of("sql").unwrap().collect::<Vec<&str>>().join(" ")`
  match qenv.dbInit with
  | .error e => { prints := [], out := .panicked ("init_db error: " ++ e) }
  | .ok _ =>
    match qenv.prepare (String.intercalate " " m.sql) with
    | .error e => { prints := [], out := .err ("prepare error: " ++ e) }
    | .ok stmtDbg =>
      let p1 : List ConsoleMsg := [.text ("stmt: " ++ stmtDbg)]
      match qenv.queryRes with
      | .error e => { prints := p1, out := .err ("query error: " ++ e) }
      | .ok _ =>
        match qenv.columnCount with
        | none => { prints := p1, out := .err "no data" }
        | some columnCount =>
          let t0 : PTable := { noBorderFmt := false, titles := none, rows := [] }
          let t1 : PTable :=
            match qenv.columnNames with
            | none => t0
            | some names => { t0 with noBorderFmt := true, titles := some names }
          let body := qenv.rowsList.map (fun row =>
            (List.range columnCount).map (fun i =>
              renderCell m.intAsDecimal (row.getD i Value.null)))
          match qenv.rowsErr with
          | some e => { prints := p1, out := .err ("rows.next() error: " ++ e) }
          | none => { prints := p1 ++ [.table { t1 with rows := body }], out := .ok }

/-- Oracles for the external collaborators touched by
`new_process_console_input`:
* `decode`: `CStr::from_ptr(..).to_str()` on the host's input buffer;
* `shlex`: `shlex::split(input)`;
* `clap`: `get_clap().get_matches_from_safe(tokens)`. -/
structure Env where
  decode : Except String String
  shlex : String → Option (List String)
  clap : List String → ClapResult
  qenv : QueryEnv

/-- Observable effects of one invocation of the intercepting handler:
* `debugLogs`: `output_debug_string` side-channel messages;
* `prints`: calls to `print` (the Output Channel), in order;
* `forwardCall`: `some args` when `ProcessConsoleInput.call(args)` ran
  (always with the original four arguments in the source);
* `panicked`: `some msg` when the invocation panicked (in Rust the panic
  unwinds out of the hook into host code, so neither the forward call nor
  any later print happens). -/
structure CallEffects where
  debugLogs : List String
  prints : List ConsoleMsg
  forwardCall : Option (Nat × Int × Int × Int)
  panicked : Option String

/-- console.rs lines 42-91: `new_process_console_input`. -/
def new_process_console_input (param1 : Nat) (param2 param3 param4 : Int)
    (env : Env) : CallEffects :=
  match env.decode with
  | .error e =>
    { debugLogs := [e], prints := [],
      forwardCall := some (param1, param2, param3, param4), panicked := none }
  | .ok input =>
    if input.length = 0 then
      { debugLogs := [], prints := [],
        forwardCall := some (param1, param2, param3, param4), panicked := none }
    else
      match env.shlex input with
      | none =>
        let diag : List ConsoleMsg :=
          match firstWord input with
          | some command =>
            if SKYRIM_SEARCH_COMMANDS.contains command then
              [.text "skyrim-search-se: parse failed; falling back to skyrim engine"]
            else []
          | none => []
        { debugLogs := [], prints := diag,
          forwardCall := some (param1, param2, param3, param4), panicked := none }
      | some tokens =>
        match tokens.head? with
        | none =>
          -- `input[0]` on the empty token vector: index-out-of-bounds panic
          { debugLogs := [], prints := [], forwardCall := none,
            panicked := some "index out of bounds: the len is 0 but the index is 0" }
        | some tok0 =>
          let command := toAsciiLowercase tok0
          if !SKYRIM_SEARCH_COMMANDS.contains command then
            { debugLogs := [],
              prints := if command = "help" then
                  [.text "skyrim-search-se usage: ss --help"] else [],
              forwardCall := some (param1, param2, param3, param4), panicked := none }
          else
            let testLine : ConsoleMsg :=
              .text ("this is test; input = " ++ rustDebugStrList tokens)
            match env.clap tokens with
            | .error e =>
              { debugLogs := [], prints := [testLine, .text e],
                forwardCall := none, panicked := none }
            | .parsed dbg query =>
              let matchesLine : ConsoleMsg := .text ("matches: " ++ dbg)
              match query with
              | none =>
                { debugLogs := [], prints := [testLine, matchesLine],
                  forwardCall := none, panicked := none }
              | some m =>
                let q := process_query_command env.qenv m
                match q.out with
                | .ok =>
                  { debugLogs := [], prints := [testLine, matchesLine] ++ q.prints,
                    forwardCall := none, panicked := none }
                | .err e =>
                  { debugLogs := [],
                    prints := [testLine, matchesLine] ++ q.prints ++ [.text e],
                    forwardCall := none, panicked := none }
                | .panicked e =>
                  { debugLogs := [], prints := [testLine, matchesLine] ++ q.prints,
                    forwardCall := none, panicked := some e }

/-- UTF-8 encoding of one scalar value (what Rust's `str::as_bytes` holds
for the character). -/
def utf8EncodeChar (c : Char) : List UInt8 :=
  let n := c.toNat
  if n < 0x80 then [UInt8.ofNat n]
  else if n < 0x800 then
    [UInt8.ofNat (0xC0 ||| (n >>> 6)), UInt8.ofNat (0x80 ||| (n &&& 0x3F))]
  else if n < 0x10000 then
    [UInt8.ofNat (0xE0 ||| (n >>> 12)), UInt8.ofNat (0x80 ||| ((n >>> 6) &&& 0x3F)),
      UInt8.ofNat (0x80 ||| (n &&& 0x3F))]
  else
    [UInt8.ofNat (0xF0 ||| (n >>> 18)), UInt8.ofNat (0x80 ||| ((n >>> 12) &&& 0x3F)),
      UInt8.ofNat (0x80 ||| ((n >>> 6) &&& 0x3F)), UInt8.ofNat (0x80 ||| (n &&& 0x3F))]

/-- Rust `str::as_bytes`: the UTF-8 bytes of a string. -/
def strBytes (s : String) : List UInt8 :=
  (s.data.map utf8EncodeChar).flatten

/-- Fuel-driven worker for `chunks1024` (each step consumes at least one
element, so fuel equal to the list length always suffices). -/
def chunks1024Aux : Nat → List UInt8 → List (List UInt8)
  | 0, _ => []
  | _ + 1, [] => []
  | fuel + 1, a :: as => (a :: as).take 1024 :: chunks1024Aux fuel ((a :: as).drop 1024)

/-- Rust `slice::chunks(1024)` (console.rs line 160): splits a byte slice into
consecutive chunks of 1024 bytes, the last possibly shorter; an empty slice
yields no chunks. -/
def chunks1024 (l : List UInt8) : List (List UInt8) :=
  chunks1024Aux l.length l

/-- console.rs lines 157-160: split the message on newlines, then each line
into chunks of at most 1024 bytes (the host print routine's internal buffer
size); the flattened chunk sequence is what the delivery loop iterates. -/
def allChunks (msg : String) : List (List UInt8) :=
  ((strSplit (fun c => c = '\n') msg).map (fun line => chunks1024 (strBytes line))).flatten

/-- Observable effects of one `print` call: the byte payloads of the host
`print_to_console` invocations, in order, and whether `result.logging_ok()`
logged an error to the side diagnostic channel. -/
structure PrintEffects where
  delivered : List (List UInt8)
  loggedErr : Bool
deriving DecidableEq

/-- console.rs lines 163-176: the delivery loop inside the `try` block.
`CString::new(chunk)` fails exactly when the chunk contains an embedded null
byte, and the `msg?` inside the loop propagates that failure out of the
`try` block, abandoning every remaining chunk. -/
def deliverChunks : List (List UInt8) → PrintEffects
  | [] => { delivered := [], loggedErr := false }
  | c :: rest =>
    if c.contains 0 then { delivered := [], loggedErr := true }
    else
      let r := deliverChunks rest
      { delivered := c :: r.delivered, loggedErr := r.loggedErr }

/-- console.rs lines 154-179: `print`.  `ctxNull` is whether the host console
context pointer `*S.console_context` is still the null sentinel (in which
case the loop body is skipped entirely).  All call sites pass valid UTF-8,
so `String::from_utf8_lossy` is the identity and the parameter is a
`String`. -/
def print (ctxNull : Bool) (msg : String) : PrintEffects :=
  if ctxNull then { delivered := [], loggedErr := false }
  else deliverChunks (allChunks msg)

/-! ### Concrete environments used to instantiate the theorems -/

/-- A query environment in which every oracle succeeds but the statement
yields no column metadata (a non-SELECT statement). -/
def qenvTriv : QueryEnv :=
  { dbInit := .ok (), prepare := fun _ => .ok "stmtdbg", queryRes := .ok (),
    columnCount := none, columnNames := none, rowsList := [], rowsErr := none }

/-- The console input `help`: tokenizes to `["help"]`. -/
def envHelp : Env :=
  { decode := .ok "help", shlex := fun _ => some ["help"],
    clap := fun _ => .error "", qenv := qenvTriv }

/-- The console input `SS "` (upper-case alias, unclosed quote): shlex
tokenization fails. -/
def envSSquote : Env :=
  { decode := .ok "SS \"", shlex := fun _ => none,
    clap := fun _ => .error "", qenv := qenvTriv }

/-- The console input `ss "` preceded by a U+00A0 NO-BREAK SPACE (lower-case
alias, unclosed quote): shlex tokenization fails, and the code's
`trim_start` removes the leading Unicode whitespace before the first word is
taken. -/
def envNbspQuote : Env :=
  { decode := .ok "\u00A0ss \"", shlex := fun _ => none,
    clap := fun _ => .error "", qenv := qenvTriv }

/-- The console input consisting of a single space: nonempty, and shlex
tokenizes it to the empty token list. -/
def envSpace : Env :=
  { decode := .ok " ", shlex := fun _ => some [],
    clap := fun _ => .error "", qenv := qenvTriv }

/-- An ordinary host console command, not one of the reserved aliases. -/
def envNotMine : Env :=
  { decode := .ok "player.additem f 100",
    shlex := fun _ => some ["player.additem", "f", "100"],
    clap := fun _ => .error "", qenv := qenvTriv }

/-- The console input `ss` alone: the grammar requires a subcommand, so clap
reports a usage error. -/
def envClapErr : Env :=
  { decode := .ok "ss", shlex := fun _ => some ["ss"],
    clap := fun _ => .error "error: The subcommand was not provided",
    qenv := qenvTriv }

/-- A query environment for `select 1`: one column named `1`, one row. -/
def qenvSelect1 : QueryEnv :=
  { dbInit := .ok (), prepare := fun _ => .ok "Statement( select 1 )",
    queryRes := .ok (), columnCount := some 1, columnNames := some ["1"],
    rowsList := [[.integer 1]], rowsErr := none }

/-- The console input `ss query select 1`, fully successful. -/
def envQueryOk : Env :=
  { decode := .ok "ss query select 1",
    shlex := fun _ => some ["ss", "query", "select", "1"],
    clap := fun _ => .parsed "ArgMatches"
      (some { sql := ["select", "1"], intAsDecimal := false }),
    qenv := qenvSelect1 }

/-! ### Helper lemmas -/

/-- The delivery loop of `print` delivers the longest null-free prefix of the
chunk sequence and logs an error exactly when some chunk contains a null
byte. -/
theorem deliverChunks_spec (cs : List (List UInt8)) :
    deliverChunks cs =
      { delivered := cs.takeWhile (fun c => !c.contains 0),
        loggedErr := cs.any (fun c => c.contains 0) } := by
  induction cs with
  | nil => rfl
  | cons c rest ih =>
    rw [deliverChunks]
    cases h : c.contains 0 with
    | true =>
      have hm : (0 : UInt8) ∈ c := by simpa using h
      simp [h, List.takeWhile_cons, List.any_cons, hm]
    | false =>
      have hm : (0 : UInt8) ∉ c := by simpa using h
      simp [h, List.takeWhile_cons, List.any_cons, ih, hm]

theorem chunks1024Aux_flatten (fuel : Nat) (l : List UInt8) (h : l.length ≤ fuel) :
    (chunks1024Aux fuel l).flatten = l := by
  induction fuel generalizing l with
  | zero =>
    have hl : l = [] := List.eq_nil_of_length_eq_zero (Nat.le_zero.mp h)
    subst hl; rfl
  | succ f ih =>
    cases l with
    | nil => rfl
    | cons a as =>
      rw [chunks1024Aux, List.flatten_cons,
        ih ((a :: as).drop 1024) (by simp [List.length_drop] at h ⊢; omega),
        List.take_append_drop]

/-- Concatenating the chunks of a byte sequence recovers the sequence. -/
theorem chunks1024_flatten (l : List UInt8) : (chunks1024 l).flatten = l :=
  chunks1024Aux_flatten l.length l (Nat.le_refl _)

theorem chunks1024Aux_le (fuel : Nat) (l : List UInt8) :
    ∀ c ∈ chunks1024Aux fuel l, c.length ≤ 1024 := by
  induction fuel generalizing l with
  | zero => simp [chunks1024Aux]
  | succ f ih =>
    cases l with
    | nil => simp [chunks1024Aux]
    | cons a as =>
      intro c hc
      rw [chunks1024Aux] at hc
      rcases List.mem_cons.mp hc with h | h
      · subst h; exact List.length_take_le _ _
      · exact ih _ c h

/-- Every chunk holds at most 1024 bytes. -/
theorem chunks1024_le (l : List UInt8) : ∀ c ∈ chunks1024 l, c.length ≤ 1024 :=
  chunks1024Aux_le l.length l

theorem chunks1024Aux_count (fuel : Nat) (l : List UInt8) (h : l.length ≤ fuel) :
    (chunks1024Aux fuel l).length = (l.length + 1023) / 1024 := by
  induction fuel generalizing l with
  | zero =>
    have hl : l = [] := List.eq_nil_of_length_eq_zero (Nat.le_zero.mp h)
    subst hl; rfl
  | succ f ih =>
    cases l with
    | nil => rfl
    | cons a as =>
      rw [chunks1024Aux, List.length_cons,
        ih ((a :: as).drop 1024) (by simp [List.length_drop] at h ⊢; omega)]
      simp only [List.length_drop, List.length_cons]
      omega

/-- The number of chunks is the byte length divided by 1024, rounded up. -/
theorem chunks1024_count (l : List UInt8) :
    (chunks1024 l).length = (l.length + 1023) / 1024 :=
  chunks1024Aux_count l.length l (Nat.le_refl _)

theorem takeWhile_eq_self_of_all {α : Type} (p : α → Bool) (l : List α)
    (h : ∀ a ∈ l, p a = true) : l.takeWhile p = l := by
  induction l with
  | nil => rfl
  | cons a as ih =>
    rw [List.takeWhile_cons, if_pos (h a (List.mem_cons_self a as))]
    exact congrArg (a :: ·) (ih (fun x hx => h x (List.mem_cons_of_mem a hx)))

theorem string_append_ne_empty (s t : String) (h : s ≠ "") : s ++ t ≠ "" := by
  intro hc
  apply h
  have hd : s.data ++ t.data = [] := by
    have := congrArg String.data hc
    simpa [String.data_append] using this
  have hs : s.data = [] := (List.append_eq_nil.mp hd).1
  cases s
  simp_all

/-! ### Claim theorems -/

/-- C6: an integer cell renders as its decimal string when `int_as_decimal`
is set, and otherwise as a `0x`-prefixed lowercase hexadecimal rendering of
its 64-bit two's-complement bit pattern; in particular `255` renders as
`"0xff"` (hex) and `"255"` (decimal), and `-1` renders as
`"0xffffffffffffffff"`. -/
theorem C6_integer_rendering :
    renderCell false (Value.integer 255) = "0xff" ∧
    renderCell true (Value.integer 255) = "255" ∧
    renderCell false (Value.integer (-1)) = "0xffffffffffffffff" ∧
    (∀ v : Int, renderCell true (Value.integer v) = toString v) ∧
    (∀ v : Int, renderCell false (Value.integer v) =
      "0x" ++ String.mk (natHexDigits ((v % (2 : Int) ^ 64).toNat))) :=
  ⟨by decide, by decide, by decide, fun _ => rfl, fun _ => rfl⟩

/-- C4, counterexample: printing `"ab\x00cd\nef"` produces two chunks, the
second (`"ef"`) free of null bytes; the claim says the offending first chunk
alone is skipped and the remaining chunks are still delivered, but the code
delivers nothing at all — the embedded-null failure aborts the rest of the
print call (the error is still logged and not propagated). -/
theorem C4_counterexample_rest_dropped :
    allChunks "ab\x00cd\nef" = [strBytes "ab\x00cd", strBytes "ef"] ∧
    (strBytes "ef").contains 0 = false ∧
    (print false "ab\x00cd\nef").delivered = [] ∧
    (print false "ab\x00cd\nef").loggedErr = true := by
  refine ⟨by decide, by decide, by decide, by decide⟩

/-- C4, amended: when a chunk of a `print` call contains an embedded null
byte, that chunk and every chunk after it in the same call are dropped —
the chunks before it are delivered, the error is logged to the side
diagnostic channel, and `print` still returns normally (it never propagates
the failure); with the console context still null, nothing is delivered and
nothing is logged. -/
theorem C4_amended_null_aborts_remainder (msg : String) :
    (print false msg).delivered =
      (allChunks msg).takeWhile (fun c => !c.contains 0) ∧
    (print false msg).loggedErr = (allChunks msg).any (fun c => c.contains 0) ∧
    print true msg = { delivered := [], loggedErr := false } := by
  refine ⟨?_, ?_, rfl⟩ <;>
    simp [print, deliverChunks_spec]

/-- C8: `print` splits its text on newlines, splits each line into byte
chunks of at most 1024 bytes (the host buffer capacity), and delivers each
chunk as one host print invocation; per line, concatenating the chunks
reconstructs the line's bytes exactly, and the number of invocations for a
line is its byte length divided by 1024 rounded up (so a 3000-byte line
yields three invocations, none exceeding the capacity).  Stated for a ready
console context and chunks free of embedded null bytes (the failure cases
are C4's). -/
theorem C8_print_chunking (msg : String)
    (hnul : ∀ c ∈ allChunks msg, c.contains 0 = false) :
    (print false msg).delivered = allChunks msg ∧
    allChunks msg =
      ((strSplit (fun c => c = '\n') msg).map
        (fun line => chunks1024 (strBytes line))).flatten ∧
    (∀ c ∈ (print false msg).delivered, c.length ≤ 1024) ∧
    (∀ line ∈ strSplit (fun c => c = '\n') msg,
      (chunks1024 (strBytes line)).flatten = strBytes line) ∧
    (∀ line ∈ strSplit (fun c => c = '\n') msg,
      (chunks1024 (strBytes line)).length = ((strBytes line).length + 1023) / 1024) := by
  have hdel : (print false msg).delivered = allChunks msg := by
    rw [print, if_neg (by simp), deliverChunks_spec]
    exact takeWhile_eq_self_of_all _ _ (fun c hc => by
      have := hnul c hc; simp_all)
  refine ⟨hdel, rfl, ?_, ?_, ?_⟩
  · rw [hdel]
    intro c hc
    rcases List.mem_flatten.mp hc with ⟨cs, hcs, hcin⟩
    rcases List.mem_map.mp hcs with ⟨line, _, rfl⟩
    exact chunks1024_le _ c hcin
  · exact fun line _ => chunks1024_flatten _
  · exact fun line _ => chunks1024_count _

/-- C8, witness: the two-line text `"ab\ncd"` is delivered as the two
chunks `"ab"` and `"cd"`, each within the 1024-byte capacity, and each
line's chunks concatenate back to the line. -/
theorem C8_print_chunking_witness :
    (print false "ab\ncd").delivered = allChunks "ab\ncd" ∧
    allChunks "ab\ncd" =
      ((strSplit (fun c => c = '\n') "ab\ncd").map
        (fun line => chunks1024 (strBytes line))).flatten ∧
    (∀ c ∈ (print false "ab\ncd").delivered, c.length ≤ 1024) ∧
    (∀ line ∈ strSplit (fun c => c = '\n') "ab\ncd",
      (chunks1024 (strBytes line)).flatten = strBytes line) ∧
    (∀ line ∈ strSplit (fun c => c = '\n') "ab\ncd",
      (chunks1024 (strBytes line)).length = ((strBytes line).length + 1023) / 1024) :=
  C8_print_chunking "ab\ncd" (by decide)

/-- C9: when the first token of a successfully tokenized input, lowercased,
is not one of the reserved aliases, the interceptor declines: the original
handler is called with the four original arguments unchanged, no panic
occurs, and no debug-channel write happens (the embedding records no write
to host console state anywhere — the code only reads the input pointer). -/
theorem C9_not_mine_forwards_unchanged (p1 : Nat) (p2 p3 p4 : Int) (env : Env)
    (input : String) (tokens : List String) (tok0 : String)
    (hdec : env.decode = .ok input) (hne : input.length ≠ 0)
    (hshlex : env.shlex input = some tokens) (h0 : tokens.head? = some tok0)
    (halias : SKYRIM_SEARCH_COMMANDS.contains (toAsciiLowercase tok0) = false) :
    (new_process_console_input p1 p2 p3 p4 env).forwardCall = some (p1, p2, p3, p4) ∧
    (new_process_console_input p1 p2 p3 p4 env).panicked = none ∧
    (new_process_console_input p1 p2 p3 p4 env).debugLogs = [] := by
  have hmem : toAsciiLowercase tok0 ∉ SKYRIM_SEARCH_COMMANDS := by simpa using halias
  unfold new_process_console_input
  rw [hdec]
  simp [hne, hshlex, h0, hmem]

/-- C9, witness: the host command `player.additem f 100` is forwarded with
its original arguments. -/
theorem C9_witness :
    (new_process_console_input 7 8 9 10 envNotMine).forwardCall = some (7, 8, 9, 10) ∧
    (new_process_console_input 7 8 9 10 envNotMine).panicked = none ∧
    (new_process_console_input 7 8 9 10 envNotMine).debugLogs = [] :=
  C9_not_mine_forwards_unchanged 7 8 9 10 envNotMine "player.additem f 100"
    ["player.additem", "f", "100"] "player.additem" rfl (by decide) rfl rfl (by decide)

/-- C2: for an input whose first token (lowercased) is a reserved alias, a
clap grammar failure, a SQL preparation failure, and a SQL execution failure
each yield a handled-with-error outcome: a non-empty error message is
printed via the Output Channel and the original handler is not called. -/
theorem C2_errors_handled_not_forwarded (p1 : Nat) (p2 p3 p4 : Int) (env : Env)
    (input : String) (tokens : List String) (tok0 : String)
    (hdec : env.decode = .ok input) (hne : input.length ≠ 0)
    (hshlex : env.shlex input = some tokens) (h0 : tokens.head? = some tok0)
    (halias : SKYRIM_SEARCH_COMMANDS.contains (toAsciiLowercase tok0) = true) :
    (∀ e, env.clap tokens = .error e → e ≠ "" →
      (new_process_console_input p1 p2 p3 p4 env).forwardCall = none ∧
      ConsoleMsg.text e ∈ (new_process_console_input p1 p2 p3 p4 env).prints) ∧
    (∀ dbg m e, env.clap tokens = .parsed dbg (some m) →
      env.qenv.dbInit = .ok () →
      env.qenv.prepare (String.intercalate " " m.sql) = .error e →
      (new_process_console_input p1 p2 p3 p4 env).forwardCall = none ∧
      ConsoleMsg.text ("prepare error: " ++ e) ∈
        (new_process_console_input p1 p2 p3 p4 env).prints ∧
      "prepare error: " ++ e ≠ "") ∧
    (∀ dbg m sd e, env.clap tokens = .parsed dbg (some m) →
      env.qenv.dbInit = .ok () →
      env.qenv.prepare (String.intercalate " " m.sql) = .ok sd →
      env.qenv.queryRes = .error e →
      (new_process_console_input p1 p2 p3 p4 env).forwardCall = none ∧
      ConsoleMsg.text ("query error: " ++ e) ∈
        (new_process_console_input p1 p2 p3 p4 env).prints ∧
      "query error: " ++ e ≠ "") := by
  have hmem : toAsciiLowercase tok0 ∈ SKYRIM_SEARCH_COMMANDS := by simpa using halias
  unfold new_process_console_input
  rw [hdec]
  refine ⟨?_, ?_, ?_⟩
  · intro e hclap _
    simp [hne, hshlex, h0, hmem, hclap]
  · intro dbg m e hclap hdb hprep
    constructor
    · simp [hne, hshlex, h0, hmem, hclap, process_query_command, hdb, hprep]
    constructor
    · simp [hne, hshlex, h0, hmem, hclap, process_query_command, hdb, hprep]
    · exact string_append_ne_empty _ _ (by decide)
  · intro dbg m sd e hclap hdb hprep hq
    constructor
    · simp [hne, hshlex, h0, hmem, hclap, process_query_command, hdb, hprep, hq]
    constructor
    · simp [hne, hshlex, h0, hmem, hclap, process_query_command, hdb, hprep, hq]
    · exact string_append_ne_empty _ _ (by decide)

/-- C2, witness: the bare input `ss` (missing subcommand) is handled with
clap's error printed and no forward to the original handler. -/
theorem C2_witness :
    (new_process_console_input 0 0 0 0 envClapErr).forwardCall = none ∧
    ConsoleMsg.text "error: The subcommand was not provided" ∈
      (new_process_console_input 0 0 0 0 envClapErr).prints :=
  (C2_errors_handled_not_forwarded 0 0 0 0 envClapErr "ss" ["ss"] "ss"
    rfl (by decide) rfl rfl (by decide)).1
    "error: The subcommand was not provided" rfl (by decide)

/-- C7: in the Query Executor, a statement whose cursor yields no column
metadata produces the error `"no data"` (no table is printed), while a
statement with column metadata but zero rows produces a rendered table with
a header row and zero body rows and succeeds. -/
theorem C7_no_data_error_vs_empty_table (m : QuerySubMatches) (qenv : QueryEnv)
    (hdb : qenv.dbInit = .ok ()) :
    (∀ sd, qenv.prepare (String.intercalate " " m.sql) = .ok sd →
      qenv.queryRes = .ok () → qenv.columnCount = none →
      (process_query_command qenv m).out = .err "no data" ∧
      (process_query_command qenv m).prints = [.text ("stmt: " ++ sd)]) ∧
    (∀ sd n names, qenv.prepare (String.intercalate " " m.sql) = .ok sd →
      qenv.queryRes = .ok () → qenv.columnCount = some n →
      qenv.columnNames = some names → qenv.rowsList = [] → qenv.rowsErr = none →
      (process_query_command qenv m).out = .ok ∧
      (process_query_command qenv m).prints =
        [.text ("stmt: " ++ sd),
          .table { noBorderFmt := true, titles := some names, rows := [] }]) := by
  constructor
  · intro sd hprep hq hcols
    simp [process_query_command, hdb, hprep, hq, hcols]
  · intro sd n names hprep hq hcount hnames hrows hrerr
    simp [process_query_command, hdb, hprep, hq, hcount, hnames, hrows, hrerr]

/-- C7, witness: a no-metadata cursor yields the `"no data"` error and only
the `stmt:` diagnostic line. -/
theorem C7_witness :
    (process_query_command qenvTriv { sql := ["pragma", "foo"], intAsDecimal := true }).out =
      .err "no data" ∧
    (process_query_command qenvTriv { sql := ["pragma", "foo"], intAsDecimal := true }).prints =
      [.text ("stmt: " ++ "stmtdbg")] :=
  (C7_no_data_error_vs_empty_table { sql := ["pragma", "foo"], intAsDecimal := true }
    qenvTriv rfl).1 "stmtdbg" rfl rfl rfl

/-- C10: for an alias-matched, successfully tokenized input the Output
Channel first receives the diagnostic line `this is test; input = ...`; on a
successful grammar parse the line `matches: ...` follows, and on the query
path after successful statement preparation the line `stmt: ...` — all
ahead of whatever the command then prints (rendered table or error
message). -/
theorem C10_diagnostic_lines_precede (p1 : Nat) (p2 p3 p4 : Int) (env : Env)
    (input : String) (tokens : List String) (tok0 : String)
    (hdec : env.decode = .ok input) (hne : input.length ≠ 0)
    (hshlex : env.shlex input = some tokens) (h0 : tokens.head? = some tok0)
    (halias : SKYRIM_SEARCH_COMMANDS.contains (toAsciiLowercase tok0) = true) :
    (∃ rest, (new_process_console_input p1 p2 p3 p4 env).prints =
      ConsoleMsg.text ("this is test; input = " ++ rustDebugStrList tokens) :: rest) ∧
    (∀ dbg q, env.clap tokens = .parsed dbg q →
      ∃ rest, (new_process_console_input p1 p2 p3 p4 env).prints =
        ConsoleMsg.text ("this is test; input = " ++ rustDebugStrList tokens) ::
          ConsoleMsg.text ("matches: " ++ dbg) :: rest) ∧
    (∀ dbg m sd, env.clap tokens = .parsed dbg (some m) →
      env.qenv.dbInit = .ok () →
      env.qenv.prepare (String.intercalate " " m.sql) = .ok sd →
      ∃ rest, (new_process_console_input p1 p2 p3 p4 env).prints =
        ConsoleMsg.text ("this is test; input = " ++ rustDebugStrList tokens) ::
          ConsoleMsg.text ("matches: " ++ dbg) ::
            ConsoleMsg.text ("stmt: " ++ sd) :: rest) := by
  have hmem : toAsciiLowercase tok0 ∈ SKYRIM_SEARCH_COMMANDS := by simpa using halias
  unfold new_process_console_input
  rw [hdec]
  refine ⟨?_, ?_, ?_⟩
  · cases hclap : env.clap tokens with
    | error e =>
      exact ⟨[ConsoleMsg.text e], by simp [hne, hshlex, h0, hmem, hclap]⟩
    | parsed dbg q =>
      cases q with
      | none =>
        exact ⟨[ConsoleMsg.text ("matches: " ++ dbg)], by simp [hne, hshlex, h0, hmem, hclap]⟩
      | some m =>
        cases hout : (process_query_command env.qenv m).out with
        | ok =>
          exact ⟨ConsoleMsg.text ("matches: " ++ dbg) ::
            (process_query_command env.qenv m).prints,
            by simp [hne, hshlex, h0, hmem, hclap, hout]⟩
        | err e =>
          exact ⟨ConsoleMsg.text ("matches: " ++ dbg) ::
            ((process_query_command env.qenv m).prints ++ [ConsoleMsg.text e]),
            by simp [hne, hshlex, h0, hmem, hclap, hout]⟩
        | panicked e =>
          exact ⟨ConsoleMsg.text ("matches: " ++ dbg) ::
            (process_query_command env.qenv m).prints,
            by simp [hne, hshlex, h0, hmem, hclap, hout]⟩
  · intro dbg q hclap
    cases q with
    | none => exact ⟨[], by simp [hne, hshlex, h0, hmem, hclap]⟩
    | some m =>
      cases hout : (process_query_command env.qenv m).out with
      | ok =>
        exact ⟨(process_query_command env.qenv m).prints,
          by simp [hne, hshlex, h0, hmem, hclap, hout]⟩
      | err e =>
        exact ⟨(process_query_command env.qenv m).prints ++ [ConsoleMsg.text e],
          by simp [hne, hshlex, h0, hmem, hclap, hout]⟩
      | panicked e =>
        exact ⟨(process_query_command env.qenv m).prints,
          by simp [hne, hshlex, h0, hmem, hclap, hout]⟩
  · intro dbg m sd hclap hdb hprep
    have hq : (process_query_command env.qenv m).prints =
        ConsoleMsg.text ("stmt: " ++ sd) ::
          ((process_query_command env.qenv m).prints.tail) := by
      unfold process_query_command
      rw [hdb, hprep]
      cases env.qenv.queryRes with
      | error e => rfl
      | ok u =>
        cases env.qenv.columnCount with
        | none => rfl
        | some n =>
          cases env.qenv.rowsErr with
          | none => rfl
          | some e => rfl
    cases hout : (process_query_command env.qenv m).out with
    | ok =>
      refine ⟨(process_query_command env.qenv m).prints.tail, ?_⟩
      simp only [hne, hshlex, h0, hmem, hclap, hout]
      simp [hne, hshlex, h0, hmem, hclap, hout]
      exact hq
    | err e =>
      refine ⟨(process_query_command env.qenv m).prints.tail ++ [ConsoleMsg.text e], ?_⟩
      simp [hne, hshlex, h0, hmem, hclap, hout]
      rw [hq]
      simp
    | panicked e =>
      refine ⟨(process_query_command env.qenv m).prints.tail, ?_⟩
      simp [hne, hshlex, h0, hmem, hclap, hout]
      exact hq

/-- C10, witness: for `ss query select 1` the three diagnostic lines open
the output. -/
theorem C10_witness :
    ∃ rest, (new_process_console_input 0 0 0 0 envQueryOk).prints =
      ConsoleMsg.text ("this is test; input = " ++
          rustDebugStrList ["ss", "query", "select", "1"]) ::
        ConsoleMsg.text ("matches: " ++ "ArgMatches") ::
          ConsoleMsg.text ("stmt: " ++ "Statement( select 1 )") :: rest :=
  (C10_diagnostic_lines_precede 0 0 0 0 envQueryOk "ss query select 1"
    ["ss", "query", "select", "1"] "ss" rfl (by decide) rfl rfl (by decide)).2.2
    "ArgMatches" { sql := ["select", "1"], intAsDecimal := false }
    "Statement( select 1 )" rfl rfl rfl

/-- C5, counterexample: on the input `SS "` tokenization fails and the first
whitespace-delimited word `SS` matches a reserved alias case-insensitively —
yet the code prints no diagnostic before forwarding, because the check at
console.rs line 61 compares the word against the all-lowercase alias list
without lowercasing it first.  This refutes the claim's "case-insensitively
matches (e.g. \"SS\" as well as \"ss\")". -/
theorem C5_counterexample_case_sensitive :
    firstWord "SS \"" = some "SS" ∧
    SKYRIM_SEARCH_COMMANDS.contains (toAsciiLowercase "SS") = true ∧
    (new_process_console_input 0 0 0 0 envSSquote).forwardCall = some (0, 0, 0, 0) ∧
    (new_process_console_input 0 0 0 0 envSSquote).prints = [] := by
  refine ⟨by decide, by decide, by decide, by decide⟩

/-- C5, amended: when tokenization fails the interceptor always forwards to
the original handler with the original arguments, and the one-line parse
diagnostic is printed beforehand exactly when the first whitespace-delimited
word — taken after `trim_start` removes leading Unicode whitespace — matches
a reserved alias *exactly* (case-sensitively — the alias list is
all-lowercase, so `ss` triggers the diagnostic and `SS` does not). -/
theorem C5_amended_tokenize_failure (p1 : Nat) (p2 p3 p4 : Int) (env : Env)
    (input : String) (hdec : env.decode = .ok input) (hne : input.length ≠ 0)
    (hshlex : env.shlex input = none) :
    (new_process_console_input p1 p2 p3 p4 env).forwardCall = some (p1, p2, p3, p4) ∧
    (new_process_console_input p1 p2 p3 p4 env).panicked = none ∧
    (∀ w, firstWord input = some w → SKYRIM_SEARCH_COMMANDS.contains w = true →
      (new_process_console_input p1 p2 p3 p4 env).prints =
        [.text "skyrim-search-se: parse failed; falling back to skyrim engine"]) ∧
    (∀ w, firstWord input = some w → SKYRIM_SEARCH_COMMANDS.contains w = false →
      (new_process_console_input p1 p2 p3 p4 env).prints = []) ∧
    (firstWord input = none →
      (new_process_console_input p1 p2 p3 p4 env).prints = []) := by
  unfold new_process_console_input
  rw [hdec]
  refine ⟨by simp [hne, hshlex], by simp [hne, hshlex], ?_, ?_, ?_⟩
  · intro w hw hc
    have hmem : w ∈ SKYRIM_SEARCH_COMMANDS := by simpa using hc
    simp [hne, hshlex, hw, hmem]
  · intro w hw hc
    have hmem : w ∉ SKYRIM_SEARCH_COMMANDS := by simpa using hc
    simp [hne, hshlex, hw, hmem]
  · intro hw
    simp [hne, hshlex, hw]

/-- C5, witness: on the input `ss "` preceded by a U+00A0 NO-BREAK SPACE
(tokenization failure), `trim_start` strips the U+00A0, the first word is
the exact lower-case alias `ss`, so the diagnostic is printed and the call
is still forwarded unchanged. -/
theorem C5_witness :
    (new_process_console_input 0 0 0 0 envNbspQuote).forwardCall = some (0, 0, 0, 0) ∧
    (new_process_console_input 0 0 0 0 envNbspQuote).prints =
      [.text "skyrim-search-se: parse failed; falling back to skyrim engine"] :=
  ⟨(C5_amended_tokenize_failure 0 0 0 0 envNbspQuote "\u00A0ss \"" rfl (by decide) rfl).1,
    (C5_amended_tokenize_failure 0 0 0 0 envNbspQuote "\u00A0ss \"" rfl (by decide) rfl).2.2.1
      "ss" (by decide) (by decide)⟩

/-- C1, counterexample: on the input `help` (tokenized, first token not an
alias) the code both calls the original handler with the original arguments
*and* writes the usage hint to the Output Channel — refuting the claim that
in the error/decline paths at most one of the original-handler call and an
Output Channel write occurs per invocation. -/
theorem C1_counterexample_help_both :
    (new_process_console_input 0 0 0 0 envHelp).forwardCall = some (0, 0, 0, 0) ∧
    (new_process_console_input 0 0 0 0 envHelp).prints =
      [.text "skyrim-search-se usage: ss --help"] := by
  refine ⟨by decide, by decide⟩

/-- C1, amended: every non-panicking invocation either calls the original
handler exactly once with the original four arguments — in which case at
most one (diagnostic) Output Channel write also occurs — or does not call
it and handles the input locally with at least one Output Channel write;
never neither. -/
theorem C1_amended_forward_or_handle (p1 : Nat) (p2 p3 p4 : Int) (env : Env)
    (hnp : (new_process_console_input p1 p2 p3 p4 env).panicked = none) :
    ((new_process_console_input p1 p2 p3 p4 env).forwardCall = some (p1, p2, p3, p4) ∧
      (new_process_console_input p1 p2 p3 p4 env).prints.length ≤ 1) ∨
    ((new_process_console_input p1 p2 p3 p4 env).forwardCall = none ∧
      (new_process_console_input p1 p2 p3 p4 env).prints ≠ []) := by
  unfold new_process_console_input at hnp ⊢
  cases hdec : env.decode with
  | error e => left; simp [hdec]
  | ok input =>
    by_cases hne : input.length = 0
    · left; simp [hdec, hne]
    · cases hshlex : env.shlex input with
      | none =>
        left
        cases hw : firstWord input with
        | none => simp [hdec, hne, hshlex, hw]
        | some w =>
          by_cases hmem : w ∈ SKYRIM_SEARCH_COMMANDS <;>
            simp [hdec, hne, hshlex, hw, hmem]
      | some tokens =>
        cases h0 : tokens.head? with
        | none => rw [hdec] at hnp; simp [hne, hshlex, h0] at hnp
        | some tok0 =>
          by_cases hmem : toAsciiLowercase tok0 ∈ SKYRIM_SEARCH_COMMANDS
          · right
            cases hclap : env.clap tokens with
            | error e => simp [hdec, hne, hshlex, h0, hmem, hclap]
            | parsed dbg q =>
              cases q with
              | none => simp [hdec, hne, hshlex, h0, hmem, hclap]
              | some m =>
                cases hout : (process_query_command env.qenv m).out <;>
                  simp [hdec, hne, hshlex, h0, hmem, hclap, hout]
          · left
            by_cases hh : toAsciiLowercase tok0 = "help"
            · rw [hh] at hmem
              simp [hdec, hne, hshlex, h0, hh, hmem]
            · simp [hdec, hne, hshlex, h0, hmem, hh]

/-- C1, amended, witness: the `help` input takes the forward branch with its
single usage-hint write. -/
theorem C1_amended_witness :
    ((new_process_console_input 0 0 0 0 envHelp).forwardCall = some (0, 0, 0, 0) ∧
      (new_process_console_input 0 0 0 0 envHelp).prints.length ≤ 1) ∨
    ((new_process_console_input 0 0 0 0 envHelp).forwardCall = none ∧
      (new_process_console_input 0 0 0 0 envHelp).prints ≠ []) :=
  C1_amended_forward_or_handle 0 0 0 0 envHelp (by decide)

/-- C3: contrary to the claim, a panic can unwind out of the intercepting
handler into host code.  On the console input consisting of a single space,
shlex tokenizes to an empty token list and `input[0]` (console.rs line 68)
panics with an index-out-of-bounds error before any forward or print; and
when the lazily-initialized database connection fails to initialize, db.rs
line 12 runs `panic!` out of the query path. -/
theorem C3_panics_reach_host :
    (new_process_console_input 0 0 0 0 envSpace).panicked =
      some "index out of bounds: the len is 0 but the index is 0" ∧
    (new_process_console_input 0 0 0 0 envSpace).forwardCall = none ∧
    (new_process_console_input 0 0 0 0 envSpace).prints = [] ∧
    (process_query_command
      { qenvTriv with dbInit := Except.error "open error: unable to open database file" }
      { sql := ["select", "1"], intAsDecimal := false }).out =
      .panicked "init_db error: open error: unable to open database file" := by
  refine ⟨by decide, by decide, by decide, by decide⟩

end SkyrimSearch
